import Mathlib

/-!
Verification of `packages/now-go/go-helpers.ts` (Go toolchain provisioning
helpers). The TypeScript source is shallowly embedded: pure string
computations become Lean functions; filesystem and subprocess effects are
made explicit (a directory set for `mkdirp`, an effect trace plus `Except`
for `downloadGo`, a subprocess result record for `execa`).
-/

namespace GoHelpers

/-- `const archMap = new Map([['x64', 'amd64'], ['x86', '386']])`. -/
def archMap : List (String × String) := [("x64", "amd64"), ("x86", "386")]

/-- `const platformMap = new Map([['win32', 'windows']])`. -/
def platformMap : List (String × String) := [("win32", "windows")]

/-- JavaScript `v || dflt` applied to a `Map.get` result: `undefined`
(`none`) and the empty string are falsy and fall through to `dflt`. -/
def jsOrElse (v : Option String) (dflt : String) : String :=
  match v with
  | some s => if s = "" then dflt else s
  | none => dflt

/-- `const getPlatform = (p) => platformMap.get(p) || p`. -/
def getPlatform (p : String) : String :=
  jsOrElse (platformMap.lookup p) p

/-- `const getArch = (a) => archMap.get(a) || a`. -/
def getArch (a : String) : String :=
  jsOrElse (archMap.lookup a) a

/-- `getGoUrl(version, platform, arch)`: the Go distribution download URL.
The extension is `zip` exactly when the raw platform is `win32`. -/
def getGoUrl (version platform arch : String) : String :=
  let goArch := getArch arch
  let goPlatform := getPlatform platform
  let ext := if platform = "win32" then "zip" else "tar.gz"
  "https://dl.google.com/go/go" ++ version ++ "." ++ goPlatform ++ "-" ++ goArch ++ "." ++ ext

/-- Result of running a subprocess: its exit code and captured stdout. -/
structure ExecResult where
  exitCode : Nat
  stdout : String
deriving DecidableEq, Repr

/-- `execa.stdout` strips one final newline (`\r\n` or `\n`) from the
captured output (the `stripEof` behavior of execa,
`input.replace(&newline-at-end-regex&, '')`). -/
def stripFinalNewline (s : String) : String :=
  match s.data.reverse with
  | '\n' :: '\r' :: rest => String.mk rest.reverse
  | '\n' :: rest => String.mk rest.reverse
  | _ => s

/-- `getExportedFunctionName(filePath)` awaits
`execa.stdout(bin, [filePath])`: the promise rejects when the detector
exits non-zero, and otherwise resolves to the stdout with its final
newline stripped. The embedding takes the detector subprocess outcome as
input and returns `Except`. -/
def getExportedFunctionName (res : ExecResult) : Except String String :=
  if res.exitCode ≠ 0 then
    .error ("Command failed with exit code " ++ toString res.exitCode)
  else
    .ok (stripFinalNewline res.stdout)

/-- `mkdirp(p)` on a filesystem modeled as the list of directory paths
that exist: creating an existing directory is a no-op, otherwise the
path is added. -/
def mkdirp (p : String) (fs : List String) : List String :=
  if p ∈ fs then fs else p :: fs

/-- The tuple `` `${getPlatform(platform)}_${getArch(arch)}` `` naming the
platform/arch subdirectory of `pkg`. -/
def goPathTuple (platform arch : String) : String :=
  getPlatform platform ++ "_" ++ getArch arch

/-- `createGoPathTree(goPath, platform, arch)`: creates `goPath/bin` and
`goPath/pkg/<goPathTuple>` via `mkdirp`. -/
def createGoPathTree (goPath platform arch : String) (fs : List String) : List String :=
  mkdirp (goPath ++ "/pkg/" ++ goPathTuple platform arch) (mkdirp (goPath ++ "/bin") fs)

/-- `get({ src })`: composes `['get']` and pushes `src` only when it is
truthy (JavaScript `if (src)`: `undefined` and `''` are falsy). -/
def get (src : Option String) : List String :=
  match src with
  | some s => if s = "" then ["get"] else ["get", s]
  | none => ["get"]

/-- `build({ src, dest })`: `src` is either a single path or an array of
paths; a single path is wrapped into a one-element array, and the
composed invocation is `build -o dest ...sources`. -/
def build (src : String ⊕ List String) (dest : String) : List String :=
  let sources := match src with
    | .inr l => l
    | .inl s => [s]
  "build" :: "-o" :: dest :: sources

/-- JavaScript template-literal rendering of a possibly-undefined string
(`undefined` prints as the text `undefined`). -/
def jsTemplate (v : Option String) : String :=
  v.getD "undefined"

/-- The environment composed by `createGo`:
`{...process.env, PATH: dirname(GO_BIN)+':'+process.env.PATH,
GOPATH: goPath, ...opts.env}` followed by the mutation
`if (goMod) env.GO111MODULE = 'on'`. Spread order means `opts.env`
entries override the base, and the `goMod` mutation happens last of
all. `goBinDir` stands for `dirname(GO_BIN)`. -/
def createGoEnv (processEnv : String → Option String) (goBinDir goPath : String)
    (optsEnv : List (String × String)) (goMod : Bool) : String → Option String :=
  let base : String → Option String := fun k =>
    if k = "PATH" then some (goBinDir ++ ":" ++ jsTemplate (processEnv "PATH"))
    else if k = "GOPATH" then some goPath
    else processEnv k
  let withOpts : String → Option String := fun k =>
    match optsEnv.lookup k with
    | some v => some v
    | none => base k
  fun k => if goMod && k == "GO111MODULE" then some "on" else withOpts k

/-- An HTTP response as seen by `downloadGo`: `res.ok` and `res.status`. -/
structure FetchResponse where
  ok : Bool
  status : Nat
deriving DecidableEq, Repr

/-- `downloadGo(dir, version, platform, arch)` modeled with an explicit
effect trace (the filesystem operations performed, in order) and an
`Except` outcome. The fetch outcome and the tar-stream outcome are
inputs. On a non-ok response it throws before any effect; otherwise it
runs `mkdirp(dir)`, pipes the body into `tar.extract` unconditionally
(there is no zip branch; the source only notes a TODO), and on a
finished stream returns `createGo(dir, platform, arch)`, whose
`createGoPathTree` effects are recorded; the returned handle is
identified by its `goPath`. -/
def downloadGo (dir version platform arch : String)
    (res : FetchResponse) (tarStreamOk : Bool) :
    List String × Except String String :=
  let url := getGoUrl version platform arch
  if res.ok = false then
    ([], .error ("Failed to download: " ++ url ++ " (" ++ toString res.status ++ ")"))
  else if tarStreamOk then
    (["mkdirp:" ++ dir, "tar-extract:" ++ dir,
      "mkdirp:" ++ dir ++ "/bin", "mkdirp:" ++ dir ++ "/pkg/" ++ goPathTuple platform arch],
     .ok dir)
  else
    (["mkdirp:" ++ dir], .error "stream error")

end GoHelpers

namespace GoHelpers

/-- Claim C6: `getPlatform` and `getArch` are pure total functions; on the
remap tables they return the mapped vendor names (`x64 ↦ amd64`,
`x86 ↦ 386`, `win32 ↦ windows`) and on any input absent from the tables
they return the input unchanged. -/
theorem resolve_total_identity (p a : String)
    (hp : platformMap.lookup p = none) (ha : archMap.lookup a = none) :
    getArch "x64" = "amd64" ∧ getArch "x86" = "386" ∧
    getPlatform "win32" = "windows" ∧ getPlatform p = p ∧ getArch a = a := by
  refine ⟨rfl, rfl, rfl, ?_, ?_⟩
  · simp [getPlatform, hp, jsOrElse]
  · simp [getArch, ha, jsOrElse]

/-- Witness for C6 at the unmapped inputs `linux` and `arm64`. -/
theorem resolve_total_identity_witness :
    getPlatform "linux" = "linux" ∧ getArch "arm64" = "arm64" := by
  have h := resolve_total_identity "linux" "arm64" (by decide) (by decide)
  exact ⟨h.2.2.2.1, h.2.2.2.2⟩

/-- Claim C2: the download URL is the vendor base followed by
`go<version>.<resolvedPlatform>-<resolvedArch>.<ext>` with the extension
selected by platform; in particular the 1.12 win32 x64 URL ends in
`windows-amd64.zip` and the 1.12 linux x64 URL ends in
`linux-amd64.tar.gz`. -/
theorem getGoUrl_shape (version platform arch : String) :
    getGoUrl version platform arch
      = "https://dl.google.com/go/" ++ "go" ++ version ++ "." ++ getPlatform platform
        ++ "-" ++ getArch arch ++ "." ++ (if platform = "win32" then "zip" else "tar.gz")
    ∧ getGoUrl "1.12" "win32" "x64" = "https://dl.google.com/go/go1.12." ++ "windows-amd64.zip"
    ∧ getGoUrl "1.12" "linux" "x64" = "https://dl.google.com/go/go1.12." ++ "linux-amd64.tar.gz" := by
  refine ⟨?_, by decide, by decide⟩
  simp [getGoUrl, String.append_assoc]

/-- Claim C8: building with a single path equals building with the
one-element sequence of that path, and for every sequence the composed
command is `build -o <dest>` followed by the sources in order. -/
theorem build_single_eq_singleton (s dest : String) (srcs : List String) :
    build (.inl s) dest = build (.inr [s]) dest
    ∧ build (.inr srcs) dest = ["build", "-o", dest] ++ srcs := by
  exact ⟨rfl, rfl⟩

/-- Claim C9 counterexample: `get` invoked with the source path `""`
composes `["get"]`, not `["get", ""]` — the JavaScript truthiness test
`if (src)` drops a falsy (empty-string) path. -/
theorem get_empty_src_counterexample : get (some "") = ["get"] := by decide

/-- Claim C9 (amended): `get` with no source path composes `["get"]`;
with a non-empty source path `p` it composes `["get", p]`; an
empty-string path is treated as absent and composes `["get"]`. -/
theorem get_args_shape (p : String) (hp : p ≠ "") :
    get none = ["get"] ∧ get (some p) = ["get", p] ∧ get (some "") = ["get"] := by
  refine ⟨rfl, ?_, rfl⟩
  simp [get, hp]

/-- Witness for the amended C9 at the path `main.go`. -/
theorem get_args_shape_witness : get (some "main.go") = ["get", "main.go"] :=
  (get_args_shape "main.go" (by decide)).2.1

/-- Claim C10: `build` performs no validation of its source sequence:
with the empty array it composes `build -o <dest>` with zero
compilation units appended. -/
theorem build_empty_sources (dest : String) :
    build (.inr []) dest = ["build", "-o", dest] := rfl

/-- Membership in the result of `mkdirp`. -/
theorem mem_mkdirp {q p : String} {fs : List String} :
    q ∈ mkdirp p fs ↔ q = p ∨ q ∈ fs := by
  unfold mkdirp
  split
  · rename_i h
    constructor
    · exact .inr
    · rintro (rfl | hq)
      · exact h
      · exact hq
  · simp [List.mem_cons]

/-- Claim C7: `createGoPathTree` creates exactly `<root>/bin` and
`<root>/pkg/<resolvedPlatform>_<resolvedArch>` (the tuple built from the
resolved vendor names) on top of the existing directory set, is
idempotent, and on the raw host pair win32/x64 the tuple directory is
`windows_amd64`, not `win32_x64`. -/
theorem createGoPathTree_spec (goPath platform arch q : String) (fs : List String) :
    (q ∈ createGoPathTree goPath platform arch fs ↔
      q = goPath ++ "/bin"
      ∨ q = goPath ++ "/pkg/" ++ (getPlatform platform ++ "_" ++ getArch arch)
      ∨ q ∈ fs)
    ∧ createGoPathTree goPath platform arch (createGoPathTree goPath platform arch fs)
        = createGoPathTree goPath platform arch fs
    ∧ createGoPathTree "/ws" "win32" "x64" [] = ["/ws/pkg/windows_amd64", "/ws/bin"] := by
  refine ⟨?_, ?_, by decide⟩
  · simp only [createGoPathTree, goPathTuple, mem_mkdirp]
    tauto
  · have hbin : goPath ++ "/bin" ∈ createGoPathTree goPath platform arch fs := by
      simp only [createGoPathTree, mem_mkdirp]
      tauto
    have hpkg : goPath ++ "/pkg/" ++ goPathTuple platform arch
        ∈ createGoPathTree goPath platform arch fs := by
      simp only [createGoPathTree, mem_mkdirp]
      tauto
    have h1 : mkdirp (goPath ++ "/bin") (createGoPathTree goPath platform arch fs)
        = createGoPathTree goPath platform arch fs := if_pos hbin
    have h2 : mkdirp (goPath ++ "/pkg/" ++ goPathTuple platform arch)
        (createGoPathTree goPath platform arch fs)
        = createGoPathTree goPath platform arch fs := if_pos hpkg
    calc createGoPathTree goPath platform arch (createGoPathTree goPath platform arch fs)
        = mkdirp (goPath ++ "/pkg/" ++ goPathTuple platform arch)
            (mkdirp (goPath ++ "/bin") (createGoPathTree goPath platform arch fs)) := rfl
      _ = createGoPathTree goPath platform arch fs := by rw [h1, h2]

/-- Claim C3 counterexample: a detector run that exits zero with empty
output does not fail — `getExportedFunctionName` returns the empty
string as a value instead of surfacing an error. -/
theorem getExportedFunctionName_empty_counterexample :
    getExportedFunctionName ⟨0, ""⟩ = .ok "" := rfl

/-- Claim C3 (amended): when the detector exits zero,
`getExportedFunctionName` returns its stdout with the final newline
stripped — including empty output, which yields the empty string rather
than an error; it fails with an error surfaced to the caller exactly
when the detector exits non-zero. -/
theorem getExportedFunctionName_spec (res : ExecResult) :
    (res.exitCode = 0 → getExportedFunctionName res = .ok (stripFinalNewline res.stdout))
    ∧ (res.exitCode ≠ 0 → getExportedFunctionName res
        = .error ("Command failed with exit code " ++ toString res.exitCode)) := by
  constructor
  · intro h
    simp [getExportedFunctionName, h]
  · intro h
    simp [getExportedFunctionName, h]

/-- Witness for the amended C3: a detector emitting a trailing newline
and a detector exiting with code 3. -/
theorem getExportedFunctionName_spec_witness :
    getExportedFunctionName ⟨0, "Handler\n"⟩ = .ok "Handler"
    ∧ getExportedFunctionName ⟨3, "x"⟩ = .error "Command failed with exit code 3" := by
  constructor
  · have h := (getExportedFunctionName_spec ⟨0, "Handler\n"⟩).1 rfl
    rw [h]
    congr 1
  · exact (getExportedFunctionName_spec ⟨3, "x"⟩).2 (by decide)

/-- Claim C1 counterexample: with `goMod = true` and a caller-supplied
`GO111MODULE = "off"` in `opts.env`, the composed environment maps
`GO111MODULE` to `"on"` — the mutation `env.GO111MODULE = 'on'` runs
after the `...opts.env` spread, so the caller-supplied value does not
take precedence. -/
theorem createGoEnv_override_counterexample :
    createGoEnv (fun _ => none) "/go/bin" "/ws" [("GO111MODULE", "off")] true "GO111MODULE"
      = some "on" := rfl

/-- Claim C1 (amended): every caller-supplied entry of `opts.env` (with
any name other than `GO111MODULE` when `goMod` is true, and including
caller-supplied `PATH` or `GOPATH`) takes final precedence in the
composed environment; when not overridden, `PATH` has the toolchain
binary directory prepended and `GOPATH` is bound to the workspace; and
`GO111MODULE` is forced to `"on"` whenever `goMod` is true, overwriting
even a caller-supplied value. -/
theorem createGoEnv_spec (processEnv : String → Option String) (goBinDir goPath : String)
    (optsEnv : List (String × String)) (goMod : Bool) (k v : String)
    (hk : optsEnv.lookup k = some v)
    (hkm : goMod = true → k ≠ "GO111MODULE") :
    createGoEnv processEnv goBinDir goPath optsEnv goMod k = some v
    ∧ (optsEnv.lookup "PATH" = none →
        createGoEnv processEnv goBinDir goPath optsEnv goMod "PATH"
          = some (goBinDir ++ ":" ++ jsTemplate (processEnv "PATH")))
    ∧ (optsEnv.lookup "GOPATH" = none →
        createGoEnv processEnv goBinDir goPath optsEnv goMod "GOPATH" = some goPath)
    ∧ (goMod = true → createGoEnv processEnv goBinDir goPath optsEnv goMod "GO111MODULE"
        = some "on") := by
  refine ⟨?_, ?_, ?_, ?_⟩
  · cases goMod with
    | false => simp [createGoEnv, hk]
    | true => simp [createGoEnv, hk, hkm rfl]
  · intro hP
    cases goMod <;> simp [createGoEnv, hP]
  · intro hG
    cases goMod <;> simp [createGoEnv, hG]
  · intro hm
    subst hm
    simp [createGoEnv]

/-- Witness for the amended C1 at a concrete environment: a
caller-supplied `PATH` wins over the composed `PATH` binding, while
`GO111MODULE` is forced on. -/
theorem createGoEnv_spec_witness :
    createGoEnv (fun _ => some "/usr/bin") "/go/bin" "/ws"
      [("PATH", "/custom"), ("FOO", "bar")] true "PATH" = some "/custom"
    ∧ createGoEnv (fun _ => some "/usr/bin") "/go/bin" "/ws"
      [("PATH", "/custom"), ("FOO", "bar")] true "GO111MODULE" = some "on" := by
  have h := createGoEnv_spec (fun _ => some "/usr/bin") "/go/bin" "/ws"
    [("PATH", "/custom"), ("FOO", "bar")] true "PATH" "/custom"
    (by decide) (fun _ => by decide)
  exact ⟨h.1, h.2.2.2 rfl⟩

/-- Claim C5: a non-ok response makes `downloadGo` throw an error whose
message contains both the attempted URL and the status code, with an
empty effect trace (no directory creation, no extraction) and no handle
returned (the outcome is `error`, never `ok`). -/
theorem downloadGo_bad_status (dir version platform arch : String) (status : Nat)
    (tarStreamOk : Bool) :
    downloadGo dir version platform arch ⟨false, status⟩ tarStreamOk
      = ([], .error ("Failed to download: " ++ getGoUrl version platform arch
          ++ " (" ++ toString status ++ ")")) := by
  simp [downloadGo, String.append_assoc]

/-- Claim C4: on platform `win32` the selected archive extension is
`zip`, yet `downloadGo` performs no explicit check — with a successful
response it pipes the body into the tar extractor and completes,
returning a handle. The expected explicit failure never happens. -/
theorem downloadGo_win32_tar_extracts_zip :
    getGoUrl "1.12" "win32" "x64" = "https://dl.google.com/go/go1.12.windows-amd64" ++ ".zip"
    ∧ downloadGo "/opt/go" "1.12" "win32" "x64" ⟨true, 200⟩ true
      = (["mkdirp:/opt/go", "tar-extract:/opt/go",
          "mkdirp:/opt/go/bin", "mkdirp:/opt/go/pkg/windows_amd64"], .ok "/opt/go") := by
  exact ⟨by decide, rfl⟩

end GoHelpers
